import Mathlib

/-!
# Verification of the MeteorMadness temporal-interpolation and timeline core

Shallow embedding of the repository's temporal effects interpolator
(`ImpactVisualizer.interpolateTemporalData`, identical in the two copies of the
visualizer), of the playback `TimelineController`, and of the casualty
aggregation contract, together with theorems checking the specification's
claims against these definitions.  Numbers are modelled as rationals `ℚ`
(the JavaScript source only ever performs field arithmetic on its inputs).
-/

set_option autoImplicit false

namespace MeteorMadness

/-- A timeline marker: `{time, label}` as used by `scenario.markers`. -/
structure Marker where
  time : ℚ
  label : String
deriving DecidableEq

instance : Inhabited Marker := ⟨⟨0, ""⟩⟩

/-- `markers[i].time`, with the out-of-range default of the embedding. -/
def mtime (markers : List Marker) (i : Nat) : ℚ :=
  (markers.getD i default).time

/-- `scenario.temporalEffects`: one sample list per effect key. -/
structure TemporalEffects where
  blastRadius : List ℚ
  seismicIntensity : List ℚ
  thermalRadius : List ℚ
  casualties : List ℚ
  airQuality : List ℚ
  temperatureRise : List ℚ
  radiationLevel : List ℚ
  windSpeed : List ℚ
  debrisCloud : List ℚ
  infrastructureDamage : List ℚ

/-- The record returned by `interpolateTemporalData` / `getEffectsAtIndex`. -/
structure EffectsSnapshot where
  blastRadius : ℚ
  seismicIntensity : ℚ
  thermalRadius : ℚ
  casualties : ℚ
  airQuality : ℚ
  temperatureRise : ℚ
  radiationLevel : ℚ
  windSpeed : ℚ
  debrisCloud : ℚ
  infrastructureDamage : ℚ
deriving DecidableEq

/-- JavaScript `Math.round`: nearest integer, halves rounding toward `+∞`. -/
def jsRound (q : ℚ) : ℚ :=
  ((⌊q + 1 / 2⌋ : ℤ) : ℚ)

/-- The visualizer's `getEffectsAtIndex(index, effects)`: raw samples at one
marker index, no rounding. -/
def getEffectsAtIndex (index : Nat) (effects : TemporalEffects) : EffectsSnapshot :=
  { blastRadius := effects.blastRadius.getD index 0
    seismicIntensity := effects.seismicIntensity.getD index 0
    thermalRadius := effects.thermalRadius.getD index 0
    casualties := effects.casualties.getD index 0
    airQuality := effects.airQuality.getD index 0
    temperatureRise := effects.temperatureRise.getD index 0
    radiationLevel := effects.radiationLevel.getD index 0
    windSpeed := effects.windSpeed.getD index 0
    debrisCloud := effects.debrisCloud.getD index 0
    infrastructureDamage := effects.infrastructureDamage.getD index 0 }

/-- The `for (let i = 0; i < markers.length - 1; i++)` search loop of
`interpolateTemporalData`, started at index `i`: the first adjacent pair with
`markers[i].time ≤ currentTime ≤ markers[i+1].time` is returned as
`(beforeIndex, afterIndex)`; if no pair matches, the loop's initial values
`(0, 0)` remain. -/
def findSegmentAux (currentTime : ℚ) (markers : List Marker) (i : Nat) : Nat × Nat :=
  if h : i + 1 < markers.length then
    if mtime markers i ≤ currentTime ∧ currentTime ≤ mtime markers (i + 1) then
      (i, i + 1)
    else
      findSegmentAux currentTime markers (i + 1)
  else
    (0, 0)
termination_by markers.length - i
decreasing_by omega

/-- `interpolateTemporalData` restricted to a single sample list (the
specification's `value_at`): segment search, the two boundary clamps, then
`before + (after - before) * timeProgress` on the chosen pair.  Every field of
`interpolateTemporalData` computes exactly this (some with `jsRound` applied),
see `interpolateTemporalData`. -/
def interpolateSeries (currentTime : ℚ) (markers : List Marker) (series : List ℚ) : ℚ :=
  let seg := findSegmentAux currentTime markers 0
  if currentTime ≤ mtime markers 0 then
    series.getD 0 0
  else if mtime markers (markers.length - 1) ≤ currentTime then
    series.getD (markers.length - 1) 0
  else
    let timeDiff := mtime markers seg.2 - mtime markers seg.1
    let timeProgress := (currentTime - mtime markers seg.1) / timeDiff
    series.getD seg.1 0 + (series.getD seg.2 0 - series.getD seg.1 0) * timeProgress

/-- The visualizer's `interpolateTemporalData(currentTime, scenario)`: find the
first matching marker pair, clamp below the first marker and above the last
marker to the raw samples, otherwise linearly interpolate every effect key,
rounding `casualties`, `airQuality`, `windSpeed` and `infrastructureDamage`
with `Math.round`. -/
def interpolateTemporalData (currentTime : ℚ) (markers : List Marker)
    (effects : TemporalEffects) : EffectsSnapshot :=
  let seg := findSegmentAux currentTime markers 0
  if currentTime ≤ mtime markers 0 then
    getEffectsAtIndex 0 effects
  else if mtime markers (markers.length - 1) ≤ currentTime then
    getEffectsAtIndex (markers.length - 1) effects
  else
    let timeDiff := mtime markers seg.2 - mtime markers seg.1
    let timeProgress := (currentTime - mtime markers seg.1) / timeDiff
    let interpolate : ℚ → ℚ → ℚ := fun before after => before + (after - before) * timeProgress
    { blastRadius := interpolate (effects.blastRadius.getD seg.1 0) (effects.blastRadius.getD seg.2 0)
      seismicIntensity := interpolate (effects.seismicIntensity.getD seg.1 0) (effects.seismicIntensity.getD seg.2 0)
      thermalRadius := interpolate (effects.thermalRadius.getD seg.1 0) (effects.thermalRadius.getD seg.2 0)
      casualties := jsRound (interpolate (effects.casualties.getD seg.1 0) (effects.casualties.getD seg.2 0))
      airQuality := jsRound (interpolate (effects.airQuality.getD seg.1 0) (effects.airQuality.getD seg.2 0))
      temperatureRise := interpolate (effects.temperatureRise.getD seg.1 0) (effects.temperatureRise.getD seg.2 0)
      radiationLevel := interpolate (effects.radiationLevel.getD seg.1 0) (effects.radiationLevel.getD seg.2 0)
      windSpeed := jsRound (interpolate (effects.windSpeed.getD seg.1 0) (effects.windSpeed.getD seg.2 0))
      debrisCloud := interpolate (effects.debrisCloud.getD seg.1 0) (effects.debrisCloud.getD seg.2 0)
      infrastructureDamage := jsRound (interpolate (effects.infrastructureDamage.getD seg.1 0) (effects.infrastructureDamage.getD seg.2 0)) }

/-- The loop's matching condition at index `i` (including its range guard). -/
def isMatch (T : ℚ) (markers : List Marker) (i : Nat) : Prop :=
  i + 1 < markers.length ∧ mtime markers i ≤ T ∧ T ≤ mtime markers (i + 1)

instance (T : ℚ) (markers : List Marker) (i : Nat) : Decidable (isMatch T markers i) := by
  unfold isMatch; infer_instance

/-- `i` is the first index matched by the segment-search loop. -/
def IsFirstMatch (T : ℚ) (markers : List Marker) (i : Nat) : Prop :=
  isMatch T markers i ∧ ∀ j, j < i → ¬ isMatch T markers j

instance (T : ℚ) (markers : List Marker) (i : Nat) : Decidable (IsFirstMatch T markers i) := by
  unfold IsFirstMatch; infer_instance

theorem findSegmentAux_of_first (T : ℚ) (markers : List Marker) :
    ∀ n k i : Nat, i - k = n → k ≤ i → isMatch T markers i →
      (∀ j, k ≤ j → j < i → ¬ isMatch T markers j) →
      findSegmentAux T markers k = (i, i + 1) := by
  intro n
  induction n with
  | zero =>
    intro k i hn hk hm _
    have hki : k = i := by omega
    subst hki
    rw [findSegmentAux]
    rw [dif_pos hm.1, if_pos ⟨hm.2.1, hm.2.2⟩]
  | succ n ih =>
    intro k i hn hk hm hnone
    have hklt : k < i := by omega
    have hkl : k + 1 < markers.length := by
      have := hm.1; omega
    rw [findSegmentAux]
    rw [dif_pos hkl]
    have hnk : ¬ (mtime markers k ≤ T ∧ T ≤ mtime markers (k + 1)) := by
      intro hc
      exact hnone k le_rfl hklt ⟨hkl, hc.1, hc.2⟩
    rw [if_neg hnk]
    exact ih (k + 1) i (by omega) (by omega) hm (fun j hj1 hj2 => hnone j (by omega) hj2)

theorem findSegmentAux_eq (T : ℚ) (markers : List Marker) (i : Nat)
    (h : IsFirstMatch T markers i) :
    findSegmentAux T markers 0 = (i, i + 1) :=
  findSegmentAux_of_first T markers i 0 i rfl (Nat.zero_le i) h.1
    (fun j _ hj => h.2 j hj)

/-- For a query time strictly inside the marker range, the loop's first match
exists, the query time lies strictly above its left endpoint, and the matched
interval has positive width (so the interpolation divisor is nonzero).  No
ordering assumption on the markers is needed. -/
theorem exists_first_match (T : ℚ) (markers : List Marker)
    (hlo : mtime markers 0 < T) (hhi : T < mtime markers (markers.length - 1)) :
    ∃ i, IsFirstMatch T markers i ∧ mtime markers i < T ∧
      T ≤ mtime markers (i + 1) ∧ mtime markers i < mtime markers (i + 1) := by
  have hlen : 0 < markers.length := by
    by_contra h
    have hz : markers.length = 0 := by omega
    have h0 : mtime markers 0 = mtime markers (markers.length - 1) := by
      rw [hz]
    rw [h0] at hlo
    exact absurd (hlo.trans hhi) (lt_irrefl _)
  have hP : ∃ j, T ≤ mtime markers j := ⟨markers.length - 1, le_of_lt hhi⟩
  classical
  let m := Nat.find hP
  have hm_spec : T ≤ mtime markers m := Nat.find_spec hP
  have hm_min : ∀ j, j < m → ¬ T ≤ mtime markers j := fun j hj => Nat.find_min hP hj
  have hm_pos : 0 < m := by
    rcases Nat.eq_zero_or_pos m with h0 | h
    · exfalso
      have := hm_spec
      rw [h0] at this
      exact absurd (lt_of_lt_of_le hlo this) (lt_irrefl _)
    · exact h
  have hm_le : m ≤ markers.length - 1 := Nat.find_min' hP (le_of_lt hhi)
  have hm_lt_len : m < markers.length := by omega
  refine ⟨m - 1, ⟨⟨by omega, ?_, ?_⟩, ?_⟩, ?_, ?_, ?_⟩
  · have := hm_min (m - 1) (by omega)
    exact le_of_lt (lt_of_not_le this)
  · have hm1 : m - 1 + 1 = m := by omega
    rw [hm1]; exact hm_spec
  · intro j hj hmatch
    have hj1 : j + 1 < m := by omega
    exact hm_min (j + 1) hj1 hmatch.2.2
  · exact lt_of_not_le (hm_min (m - 1) (by omega))
  · have hm1 : m - 1 + 1 = m := by omega
    rw [hm1]; exact hm_spec
  · have hm1 : m - 1 + 1 = m := by omega
    have h1 : mtime markers (m - 1) < T := lt_of_not_le (hm_min (m - 1) (by omega))
    rw [hm1]; exact lt_of_lt_of_le h1 hm_spec

/-- Value of `interpolateSeries` once a first matching pair is known and both
boundary clamps are ruled out: the linear-interpolation formula at that pair. -/
theorem interp_eq_of_first_match (T : ℚ) (markers : List Marker) (series : List ℚ)
    (i : Nat) (hfm : IsFirstMatch T markers i)
    (hlo : mtime markers 0 < T) (hhi : T < mtime markers (markers.length - 1)) :
    interpolateSeries T markers series =
      series.getD i 0 + (series.getD (i + 1) 0 - series.getD i 0) *
        ((T - mtime markers i) / (mtime markers (i + 1) - mtime markers i)) := by
  unfold interpolateSeries
  rw [findSegmentAux_eq T markers i hfm]
  rw [if_neg (not_le.mpr hlo), if_neg (not_le.mpr hhi)]

/-- The spec's two-marker demo scenario: markers at 0 s ("impact") and 3600 s
("1hr"). -/
def demoMarkers : List Marker := [⟨0, "impact"⟩, ⟨3600, "1hr"⟩]

/-- The demo `blastRadius` series `[0, 30]`. -/
def demoBlast : List ℚ := [0, 30]

/-- C1: for every query time strictly between the first and last marker times,
`value_at` uses the first adjacent pair `(markers[i], markers[i+1])` with
`markers[i].time ≤ T ≤ markers[i+1].time` and returns
`series[i] + p × (series[i+1] − series[i])` with
`p = (T − markers[i].time) / (markers[i+1].time − markers[i].time)`. -/
theorem valueAt_first_pair_linear (T : ℚ) (markers : List Marker) (series : List ℚ)
    (i : Nat) (hfm : IsFirstMatch T markers i)
    (hlo : mtime markers 0 < T) (hhi : T < mtime markers (markers.length - 1)) :
    interpolateSeries T markers series =
      series.getD i 0 +
        ((T - mtime markers i) / (mtime markers (i + 1) - mtime markers i)) *
          (series.getD (i + 1) 0 - series.getD i 0) := by
  rw [interp_eq_of_first_match T markers series i hfm hlo hhi]
  ring

/-- Witness for C1: the spec's scenario — markers `[{0,"impact"},{3600,"1hr"}]`,
`blastRadius = [0, 30]`, query at 1800 s, first matching pair index 0 — gives
`value_at(1800) = 15`. -/
theorem valueAt_first_pair_linear_witness :
    IsFirstMatch 1800 demoMarkers 0 ∧ interpolateSeries 1800 demoMarkers demoBlast = 15 := by
  refine ⟨by decide, ?_⟩
  rw [valueAt_first_pair_linear 1800 demoMarkers demoBlast 0 (by decide) (by decide) (by decide)]
  norm_num [mtime, demoMarkers, demoBlast]

/-- Ascending markers with a duplicated time at both ends of the range. -/
def dupMarkers : List Marker := [⟨0, "a"⟩, ⟨0, "b"⟩]

/-- Series for the duplicated-marker counterexample. -/
def dupSeries : List ℚ := [1, 2]

/-- C2 counterexample: with (ascending) markers at times `[0, 0]` and series
`[1, 2]`, the query `T = 0` satisfies `T ≥ markers[last].time`, yet the code
returns `series[0] = 1`, not `series[last] = 2` — the low clamp is checked
first and wins. -/
theorem clamp_duplicate_cex :
    mtime dupMarkers (dupMarkers.length - 1) ≤ 0 ∧
      interpolateSeries 0 dupMarkers dupSeries ≠
        dupSeries.getD (dupMarkers.length - 1) 0 := by
  decide

/-- C2 amended: the low clamp is unconditional (`T ≤ markers[0].time` returns
`series[0]`); the high clamp returns `series[last]` whenever
`T ≥ markers[last].time` provided the low clamp does not also apply
(`markers[0].time < T`). -/
theorem clamp_low_and_high (T : ℚ) (markers : List Marker) (series : List ℚ)
    (hne : markers ≠ []) :
    (T ≤ mtime markers 0 → interpolateSeries T markers series = series.getD 0 0) ∧
      (mtime markers 0 < T → mtime markers (markers.length - 1) ≤ T →
        interpolateSeries T markers series = series.getD (markers.length - 1) 0) := by
  constructor
  · intro h
    unfold interpolateSeries
    rw [if_pos h]
  · intro h1 h2
    unfold interpolateSeries
    rw [if_neg (not_le.mpr h1), if_pos h2]

/-- Markers for the clamp witness. -/
def clampMarkers : List Marker := [⟨0, "a"⟩, ⟨10, "b"⟩]

/-- Series for the clamp witness. -/
def clampSeries : List ℚ := [3, 7]

/-- Witness for C2 amended: below-range query returns the first sample and
above-range query returns the last sample. -/
theorem clamp_low_and_high_witness :
    interpolateSeries (-1) clampMarkers clampSeries = 3 ∧
      interpolateSeries 11 clampMarkers clampSeries = 7 := by
  constructor
  · have h := (clamp_low_and_high (-1) clampMarkers clampSeries (by decide)).1 (by decide)
    rw [h]; norm_num [clampSeries]
  · have h := (clamp_low_and_high 11 clampMarkers clampSeries (by decide)).2 (by decide) (by decide)
    rw [h]; norm_num [clampMarkers, clampSeries]

/-- Ascending markers with a duplicated (zero-width) interval strictly inside
the range. -/
def degMarkers : List Marker := [⟨0, "a"⟩, ⟨5, "b"⟩, ⟨5, "c"⟩, ⟨10, "d"⟩]

/-- Series for the degenerate-interval witness. -/
def degSeries : List ℚ := [2, 4, 6, 8]

/-- C4: zero-width intervals are harmless.  (1) For every query time strictly
inside the marker range the loop picks a definite first-matching segment of
strictly positive width, so the divisor of the interpolation is nonzero and
the result is the well-defined linear-interpolation value.  (2) Querying at
the time of a degenerate pair `(markers[i], markers[i+1])` (with `i` the first
index carrying that time, the pair the first-match rule resolves to) returns
exactly `series[i]`, the value that progress 0 on the degenerate interval
would give. -/
theorem degenerate_interval_safe (markers : List Marker) (series : List ℚ) :
    (∀ T : ℚ, mtime markers 0 < T → T < mtime markers (markers.length - 1) →
      ∃ i, IsFirstMatch T markers i ∧
        findSegmentAux T markers 0 = (i, i + 1) ∧
        mtime markers i < mtime markers (i + 1) ∧
        interpolateSeries T markers series =
          series.getD i 0 + (series.getD (i + 1) 0 - series.getD i 0) *
            ((T - mtime markers i) / (mtime markers (i + 1) - mtime markers i))) ∧
    (∀ i, i + 1 < markers.length → mtime markers i = mtime markers (i + 1) →
      (∀ j, j < i → mtime markers j < mtime markers i) →
      mtime markers i < mtime markers (markers.length - 1) →
      interpolateSeries (mtime markers i) markers series = series.getD i 0) := by
  constructor
  · intro T hlo hhi
    obtain ⟨i, hfm, _, _, hw⟩ := exists_first_match T markers hlo hhi
    exact ⟨i, hfm, findSegmentAux_eq T markers i hfm, hw,
      interp_eq_of_first_match T markers series i hfm hlo hhi⟩
  · intro i hi hdeg hbefore hlast
    rcases Nat.eq_zero_or_pos i with h0 | hpos
    · subst h0
      unfold interpolateSeries
      rw [if_pos le_rfl]
    · have hlo : mtime markers 0 < mtime markers i := hbefore 0 hpos
      have hi1 : i - 1 + 1 = i := by omega
      have hw : mtime markers (i - 1) < mtime markers i := hbefore (i - 1) (by omega)
      have hfm : IsFirstMatch (mtime markers i) markers (i - 1) := by
        refine ⟨⟨by omega, le_of_lt (by rw [hi1] at *; exact hw), by rw [hi1]⟩, ?_⟩
        intro j hj hm
        have hjlt : j + 1 < i := by omega
        have := hbefore (j + 1) (by omega)
        exact absurd hm.2.2 (not_le.mpr this)
      rw [interp_eq_of_first_match (mtime markers i) markers series (i - 1) hfm hlo hlast]
      rw [hi1]
      rw [div_self (sub_ne_zero.mpr (ne_of_gt hw))]
      ring

/-- Witness for C4: in markers `[0, 5, 5, 10]` with series `[2, 4, 6, 8]`, the
interior query 2 has a definite positive-width first segment, and querying at
the degenerate time 5 (pair index 1) returns `series[1] = 4`. -/
theorem degenerate_interval_safe_witness :
    (∃ i, IsFirstMatch 2 degMarkers i ∧
      findSegmentAux 2 degMarkers 0 = (i, i + 1) ∧
      mtime degMarkers i < mtime degMarkers (i + 1) ∧
      interpolateSeries 2 degMarkers degSeries =
        degSeries.getD i 0 + (degSeries.getD (i + 1) 0 - degSeries.getD i 0) *
          ((2 - mtime degMarkers i) / (mtime degMarkers (i + 1) - mtime degMarkers i))) ∧
    interpolateSeries (mtime degMarkers 1) degMarkers degSeries = degSeries.getD 1 0 :=
  ⟨(degenerate_interval_safe degMarkers degSeries).1 2 (by decide) (by decide),
    (degenerate_interval_safe degMarkers degSeries).2 1 (by decide) (by decide)
      (by decide) (by decide)⟩

/-- With strictly increasing marker times, the interpolated value anywhere in
the segment `[markers[i].time, markers[i+1].time]` is given by the linear
formula on that segment (including at the endpoints, where the clamps or the
preceding segment produce the same value). -/
theorem interp_on_segment (markers : List Marker) (series : List ℚ)
    (hst : ∀ b, b < markers.length → ∀ a, a < b → mtime markers a < mtime markers b)
    (i : Nat) (hi : i + 1 < markers.length) (T : ℚ)
    (h1 : mtime markers i ≤ T) (h2 : T ≤ mtime markers (i + 1)) :
    interpolateSeries T markers series =
      series.getD i 0 + (series.getD (i + 1) 0 - series.getD i 0) *
        ((T - mtime markers i) / (mtime markers (i + 1) - mtime markers i)) := by
  have hw : mtime markers i < mtime markers (i + 1) := hst (i + 1) hi i (Nat.lt_succ_self i)
  by_cases hT0 : T ≤ mtime markers 0
  · have hi0 : i = 0 := by
      by_contra h
      have hpos : 0 < i := Nat.pos_of_ne_zero h
      have h0i : mtime markers 0 < mtime markers i := hst i (by omega) 0 hpos
      linarith
    subst hi0
    have hTeq : T = mtime markers 0 := le_antisymm hT0 h1
    unfold interpolateSeries
    rw [if_pos hT0, hTeq, sub_self, zero_div, mul_zero, add_zero]
  · have hlo : mtime markers 0 < T := lt_of_not_le hT0
    by_cases hTl : mtime markers (markers.length - 1) ≤ T
    · have hlast : i + 1 = markers.length - 1 := by
        by_contra h
        have hlt : i + 1 < markers.length - 1 := by omega
        have := hst (markers.length - 1) (by omega) (i + 1) hlt
        linarith
      have hTeq : T = mtime markers (i + 1) := le_antisymm h2 (by rw [hlast]; exact hTl)
      unfold interpolateSeries
      rw [if_neg (not_le.mpr hlo), if_pos hTl, ← hlast, hTeq,
        div_self (sub_ne_zero.mpr (ne_of_gt hw))]
      ring
    · have hhi : T < mtime markers (markers.length - 1) := lt_of_not_le hTl
      by_cases hTi : mtime markers i < T
      · have hfm : IsFirstMatch T markers i := by
          refine ⟨⟨hi, h1, h2⟩, ?_⟩
          intro j hj hm
          have hle : mtime markers (j + 1) ≤ mtime markers i := by
            rcases Nat.lt_or_ge (j + 1) i with hlt | hge
            · exact le_of_lt (hst i (by omega) (j + 1) hlt)
            · have : j + 1 = i := by omega
              rw [this]
          linarith [hm.2.2]
        exact interp_eq_of_first_match T markers series i hfm hlo hhi
      · have hTeq : T = mtime markers i := le_antisymm (not_lt.mp hTi) h1
        have hipos : 0 < i := by
          by_contra h
          have : i = 0 := by omega
          rw [this] at hTeq
          exact absurd hTeq (ne_of_gt hlo)
        have hi1 : i - 1 + 1 = i := by omega
        have hw2 : mtime markers (i - 1) < mtime markers i := hst i (by omega) (i - 1) (by omega)
        have hfm : IsFirstMatch T markers (i - 1) := by
          refine ⟨⟨by omega, ?_, ?_⟩, ?_⟩
          · rw [hTeq]; exact le_of_lt (by rw [hi1] at *; exact hw2)
          · rw [hi1, hTeq]
          · intro j hj hm
            have := hst i (by omega) (j + 1) (by omega)
            rw [hTeq] at hm
            exact absurd hm.2.2 (not_le.mpr this)
        rw [interp_eq_of_first_match T markers series (i - 1) hfm hlo hhi, hi1, hTeq,
          div_self (sub_ne_zero.mpr (ne_of_gt hw2)), sub_self, zero_div]
        ring

/-- Strictly increasing markers for the no-overshoot counterexample's fix. -/
def segMarkers : List Marker := [⟨0, "a"⟩, ⟨10, "b"⟩]

/-- Series for the no-overshoot witness. -/
def segSeries : List ℚ := [3, 7]

/-- Markers with a duplicated time, for the overshoot counterexample. -/
def osMarkers : List Marker := [⟨0, "a"⟩, ⟨5, "b"⟩, ⟨5, "c"⟩, ⟨10, "d"⟩]

/-- Series for the overshoot counterexample. -/
def osSeries : List ℚ := [0, 100, 0, 0]

/-- C7 counterexample: with duplicated marker times `[0, 5, 5, 10]` and series
`[0, 100, 0, 0]`, the query `T = 5` lies in the segment `(markers[2],
markers[3])` whose endpoint samples are both 0, yet the interpolated value is
100 — far outside `[series[2], series[3]]` — because the first-matching
segment is `(markers[0], markers[1])`. -/
theorem segment_overshoot_cex :
    mtime osMarkers 2 ≤ 5 ∧ (5 : ℚ) ≤ mtime osMarkers 3 ∧
      osSeries.getD 2 0 = 0 ∧ osSeries.getD 3 0 = 0 ∧
      interpolateSeries 5 osMarkers osSeries = 100 := by
  refine ⟨by decide, by decide, by decide, by decide, ?_⟩
  rw [interp_eq_of_first_match 5 osMarkers osSeries 0 (by decide) (by decide) (by decide)]
  norm_num [mtime, osMarkers, osSeries]

/-- C7 amended: with strictly increasing marker times, for any
`markers[i].time ≤ T1 ≤ T2 ≤ markers[i+1].time` the interpolated value at `T1`
stays between `series[i]` and `series[i+1]`, and the value moves monotonically
from `series[i]` toward `series[i+1]` as the query time increases across the
segment, with no overshoot. -/
theorem segment_bounded_monotone (markers : List Marker) (series : List ℚ)
    (hst : ∀ b, b < markers.length → ∀ a, a < b → mtime markers a < mtime markers b)
    (i : Nat) (hi : i + 1 < markers.length) (T1 T2 : ℚ)
    (hT1 : mtime markers i ≤ T1) (h12 : T1 ≤ T2) (hT2 : T2 ≤ mtime markers (i + 1)) :
    (min (series.getD i 0) (series.getD (i + 1) 0) ≤ interpolateSeries T1 markers series ∧
      interpolateSeries T1 markers series ≤ max (series.getD i 0) (series.getD (i + 1) 0)) ∧
    (series.getD i 0 ≤ series.getD (i + 1) 0 →
      interpolateSeries T1 markers series ≤ interpolateSeries T2 markers series) ∧
    (series.getD (i + 1) 0 ≤ series.getD i 0 →
      interpolateSeries T2 markers series ≤ interpolateSeries T1 markers series) := by
  have hw : mtime markers i < mtime markers (i + 1) := hst (i + 1) hi i (Nat.lt_succ_self i)
  have hwpos : 0 < mtime markers (i + 1) - mtime markers i := sub_pos.mpr hw
  rw [interp_on_segment markers series hst i hi T1 hT1 (h12.trans hT2),
    interp_on_segment markers series hst i hi T2 (hT1.trans h12) hT2]
  set s := series.getD i 0 with hs
  set t := series.getD (i + 1) 0 with ht
  set p1 := (T1 - mtime markers i) / (mtime markers (i + 1) - mtime markers i) with hp1
  set p2 := (T2 - mtime markers i) / (mtime markers (i + 1) - mtime markers i) with hp2
  have hp1n : 0 ≤ p1 := div_nonneg (by linarith) hwpos.le
  have hp1o : p1 ≤ 1 := by
    rw [hp1, div_le_one hwpos]; linarith
  have hp2n : 0 ≤ p2 := div_nonneg (by linarith) hwpos.le
  have hp2o : p2 ≤ 1 := by
    rw [hp2, div_le_one hwpos]; linarith
  have hp12 : p1 ≤ p2 := by
    rw [hp1, hp2]
    exact div_le_div_of_nonneg_right (by linarith) hwpos.le
  refine ⟨?_, ?_, ?_⟩
  · rcases le_total s t with h | h
    · rw [min_eq_left h, max_eq_right h]
      constructor <;> nlinarith
    · rw [min_eq_right h, max_eq_left h]
      constructor <;> nlinarith
  · intro h; nlinarith
  · intro h; nlinarith

/-- Witness for C7 amended: markers `[0, 10]`, series `[3, 7]`, segment 0,
query times 2 ≤ 5. -/
theorem segment_bounded_monotone_witness :
    (min (segSeries.getD 0 0) (segSeries.getD 1 0) ≤ interpolateSeries 2 segMarkers segSeries ∧
      interpolateSeries 2 segMarkers segSeries ≤ max (segSeries.getD 0 0) (segSeries.getD 1 0)) ∧
    (segSeries.getD 0 0 ≤ segSeries.getD 1 0 →
      interpolateSeries 2 segMarkers segSeries ≤ interpolateSeries 5 segMarkers segSeries) ∧
    (segSeries.getD 1 0 ≤ segSeries.getD 0 0 →
      interpolateSeries 5 segMarkers segSeries ≤ interpolateSeries 2 segMarkers segSeries) :=
  segment_bounded_monotone segMarkers segSeries (by decide) 0 (by decide) 2 5
    (by decide) (by norm_num) (by decide)

/-- A concrete ten-key effects table over the demo markers, for witnesses. -/
def demoEffects : TemporalEffects :=
  { blastRadius := [0, 30]
    seismicIntensity := [1, 9]
    thermalRadius := [0, 12]
    casualties := [0, 501]
    airQuality := [50, 151]
    temperatureRise := [0, 5]
    radiationLevel := [0, 3]
    windSpeed := [0, 101]
    debrisCloud := [0, 8]
    infrastructureDamage := [0, 77] }

/-- C6: at query times strictly inside the marker range, the snapshot rounds
`casualties`, `windSpeed` and `infrastructureDamage` to the nearest integer
after linear interpolation (`Math.round`), while `blastRadius`,
`thermalRadius`, `temperatureRise` and `debrisCloud` are the unrounded
interpolated values. -/
theorem snapshot_rounding_keys (T : ℚ) (markers : List Marker) (effects : TemporalEffects)
    (hlo : mtime markers 0 < T) (hhi : T < mtime markers (markers.length - 1)) :
    (interpolateTemporalData T markers effects).casualties =
        jsRound (interpolateSeries T markers effects.casualties) ∧
      (interpolateTemporalData T markers effects).windSpeed =
        jsRound (interpolateSeries T markers effects.windSpeed) ∧
      (interpolateTemporalData T markers effects).infrastructureDamage =
        jsRound (interpolateSeries T markers effects.infrastructureDamage) ∧
      (interpolateTemporalData T markers effects).blastRadius =
        interpolateSeries T markers effects.blastRadius ∧
      (interpolateTemporalData T markers effects).thermalRadius =
        interpolateSeries T markers effects.thermalRadius ∧
      (interpolateTemporalData T markers effects).temperatureRise =
        interpolateSeries T markers effects.temperatureRise ∧
      (interpolateTemporalData T markers effects).debrisCloud =
        interpolateSeries T markers effects.debrisCloud := by
  simp only [interpolateTemporalData, interpolateSeries,
    if_neg (not_le.mpr hlo), if_neg (not_le.mpr hhi)]
  exact ⟨trivial, trivial, trivial, trivial, trivial, trivial, trivial⟩

/-- Witness for C6 at the demo scenario, query time 1800. -/
theorem snapshot_rounding_keys_witness :
    mtime demoMarkers 0 < 1800 ∧ (1800 : ℚ) < mtime demoMarkers (demoMarkers.length - 1) ∧
      ((interpolateTemporalData 1800 demoMarkers demoEffects).casualties =
          jsRound (interpolateSeries 1800 demoMarkers demoEffects.casualties) ∧
        (interpolateTemporalData 1800 demoMarkers demoEffects).windSpeed =
          jsRound (interpolateSeries 1800 demoMarkers demoEffects.windSpeed) ∧
        (interpolateTemporalData 1800 demoMarkers demoEffects).infrastructureDamage =
          jsRound (interpolateSeries 1800 demoMarkers demoEffects.infrastructureDamage) ∧
        (interpolateTemporalData 1800 demoMarkers demoEffects).blastRadius =
          interpolateSeries 1800 demoMarkers demoEffects.blastRadius ∧
        (interpolateTemporalData 1800 demoMarkers demoEffects).thermalRadius =
          interpolateSeries 1800 demoMarkers demoEffects.thermalRadius ∧
        (interpolateTemporalData 1800 demoMarkers demoEffects).temperatureRise =
          interpolateSeries 1800 demoMarkers demoEffects.temperatureRise ∧
        (interpolateTemporalData 1800 demoMarkers demoEffects).debrisCloud =
          interpolateSeries 1800 demoMarkers demoEffects.debrisCloud) :=
  ⟨by decide, by decide,
    snapshot_rounding_keys 1800 demoMarkers demoEffects (by decide) (by decide)⟩

/-- C10: at query times strictly inside the marker range, `airQuality` is also
rounded to the nearest integer after linear interpolation, exactly like
`casualties`, `windSpeed` and `infrastructureDamage`. -/
theorem snapshot_airQuality_rounded (T : ℚ) (markers : List Marker)
    (effects : TemporalEffects)
    (hlo : mtime markers 0 < T) (hhi : T < mtime markers (markers.length - 1)) :
    (interpolateTemporalData T markers effects).airQuality =
      jsRound (interpolateSeries T markers effects.airQuality) := by
  simp only [interpolateTemporalData, interpolateSeries,
    if_neg (not_le.mpr hlo), if_neg (not_le.mpr hhi)]

/-- Witness for C10 at the demo scenario, query time 1800. -/
theorem snapshot_airQuality_rounded_witness :
    mtime demoMarkers 0 < 1800 ∧ (1800 : ℚ) < mtime demoMarkers (demoMarkers.length - 1) ∧
      (interpolateTemporalData 1800 demoMarkers demoEffects).airQuality =
        jsRound (interpolateSeries 1800 demoMarkers demoEffects.airQuality) :=
  ⟨by decide, by decide,
    snapshot_airQuality_rounded 1800 demoMarkers demoEffects (by decide) (by decide)⟩

/-- The playback controller's cursor state: `currentTime`, `duration`,
`isPlaying`, `playbackSpeed` (DOM handles, `animationId` and the wall-clock
bookkeeping `lastUpdateTime` are scheduling details outside the embedding). -/
structure TimelineController where
  currentTime : ℚ
  duration : ℚ
  isPlaying : Bool
  playbackSpeed : ℚ
deriving DecidableEq

/-- `pause()`: stop playing (button text and frame cancellation are DOM-only
effects). -/
def TimelineController.pause (s : TimelineController) : TimelineController :=
  { s with isPlaying := false }

/-- `reset()`: `pause()` then `currentTime = 0`. -/
def TimelineController.reset (s : TimelineController) : TimelineController :=
  { s.pause with currentTime := 0 }

/-- `step()`: `pause()` then `currentTime = Math.min(currentTime + 3600,
duration)`. -/
def TimelineController.step (s : TimelineController) : TimelineController :=
  { s.pause with currentTime := min (s.currentTime + 3600) s.duration }

/-- `animate()` for one frame, with `deltaTime` the elapsed real seconds since
the previous frame: an early return when not playing, otherwise
`currentTime += deltaTime * playbackSpeed * 3600`, clamped to `duration` with
a `pause()` when the end is reached. -/
def TimelineController.animate (s : TimelineController) (deltaTime : ℚ) : TimelineController :=
  if s.isPlaying then
    let ct := s.currentTime + deltaTime * s.playbackSpeed * 3600
    if s.duration ≤ ct then { s with currentTime := s.duration, isPlaying := false }
    else { s with currentTime := ct }
  else s

/-- `play()`: set playing, record the wall clock, and run the first `animate()`
frame, whose elapsed time is the instant between the two `performance.now()`
calls, idealized to 0. -/
def TimelineController.play (s : TimelineController) : TimelineController :=
  TimelineController.animate { s with isPlaying := true } 0

/-- `setDuration(duration)`: store the new duration, rewind to 0, `pause()`. -/
def TimelineController.setDuration (s : TimelineController) (d : ℚ) : TimelineController :=
  TimelineController.pause { s with duration := d, currentTime := 0 }

/-- The `timelineSlider` input handler: `currentTime = (percentage / 100) *
duration`. -/
def TimelineController.sliderInput (s : TimelineController) (percentage : ℚ) :
    TimelineController :=
  { s with currentTime := percentage / 100 * s.duration }

/-- The public mutating operations of the timeline controller. -/
inductive TimelineOp where
  | setDuration (d : ℚ)
  | play
  | pause
  | reset
  | step
  | animate (deltaTime : ℚ)
  | sliderInput (percentage : ℚ)

/-- One mutating operation, paired with whether the source calls
`notifyCallbacks()` on that path: `reset`, `step` and the slider handler
always notify; `play` notifies through the `animate()` frame it starts;
`animate` notifies unless it early-returns when not playing; `setDuration`
and `pause` do not call `notifyCallbacks()`. -/
def TimelineOp.apply : TimelineOp → TimelineController → TimelineController × Bool
  | .setDuration d, s => (s.setDuration d, false)
  | .play, s => (s.play, true)
  | .pause, s => (s.pause, false)
  | .reset, s => (s.reset, true)
  | .step, s => (s.step, true)
  | .animate e, s => (s.animate e, s.isPlaying)
  | .sliderInput p, s => (s.sliderInput p, true)

/-- Domain of each operation's argument: non-negative durations and frame
times, slider percentages in `[0, 100]`. -/
def TimelineOp.Valid : TimelineOp → Prop
  | .setDuration d => 0 ≤ d
  | .animate e => 0 ≤ e
  | .sliderInput p => 0 ≤ p ∧ p ≤ 100
  | _ => True

instance : (op : TimelineOp) → Decidable op.Valid := fun op => by
  cases op <;> simp only [TimelineOp.Valid] <;> infer_instance

/-- The TimelineCursor invariant: `0 ≤ current_time ≤ duration`. -/
def CursorInvariant (s : TimelineController) : Prop :=
  0 ≤ s.currentTime ∧ s.currentTime ≤ s.duration

instance (s : TimelineController) : Decidable (CursorInvariant s) := by
  unfold CursorInvariant; infer_instance

theorem animate_preserves_invariant (s : TimelineController) (e : ℚ)
    (h : CursorInvariant s) (hsp : 0 ≤ s.playbackSpeed) (he : 0 ≤ e) :
    CursorInvariant (s.animate e) := by
  simp only [TimelineController.animate]
  cases hb : s.isPlaying with
  | false => simpa using h
  | true =>
    simp only [if_true]
    by_cases hd : s.duration ≤ s.currentTime + e * s.playbackSpeed * 3600
    · rw [if_pos hd]
      exact ⟨h.1.trans h.2, le_rfl⟩
    · rw [if_neg hd]
      refine ⟨?_, le_of_lt (lt_of_not_le hd)⟩
      have : 0 ≤ e * s.playbackSpeed * 3600 := by positivity
      exact add_nonneg h.1 this

/-- A playing state one hour before the end of the default 3-day duration. -/
def tlFast : TimelineController := ⟨0, 259200, true, 1⟩

/-- C3 counterexample: while playing at `playbackSpeed = 1`, an advance tick
with elapsed real time 1 s moves `currentTime` to 3600, not to
`currentTime + 1 × speed = 1`: the code multiplies the elapsed time by the
additional factor 3600 (one simulated hour per real second). -/
theorem animate_speed_factor_cex :
    (tlFast.animate 1).currentTime = 3600 ∧
      tlFast.currentTime + 1 * tlFast.playbackSpeed ≠ (tlFast.animate 1).currentTime := by
  norm_num [TimelineController.animate, tlFast]

/-- C3 amended: while playing, an advance tick with elapsed real seconds `e`
adds exactly `e × playbackSpeed × 3600` to `currentTime`; when the result
reaches or exceeds `duration`, `currentTime` is clamped to `duration` and the
state transitions to stopped. -/
theorem animate_advances_scaled (s : TimelineController) (e : ℚ)
    (hp : s.isPlaying = true) :
    (s.currentTime + e * s.playbackSpeed * 3600 < s.duration →
      (s.animate e).currentTime = s.currentTime + e * s.playbackSpeed * 3600 ∧
        (s.animate e).isPlaying = true) ∧
      (s.duration ≤ s.currentTime + e * s.playbackSpeed * 3600 →
        (s.animate e).currentTime = s.duration ∧ (s.animate e).isPlaying = false) := by
  simp only [TimelineController.animate, hp, if_true]
  constructor
  · intro h
    rw [if_neg (not_le.mpr h)]
    exact ⟨rfl, rfl⟩
  · intro h
    rw [if_pos h]
    exact ⟨rfl, rfl⟩

/-- Witness for C3 amended: from `tlFast`, a 1-second tick lands at 3600,
still playing. -/
theorem animate_advances_scaled_witness :
    (tlFast.animate 1).currentTime = tlFast.currentTime + 1 * tlFast.playbackSpeed * 3600 ∧
      (tlFast.animate 1).isPlaying = true :=
  (animate_advances_scaled tlFast 1 rfl).1 (by norm_num [tlFast])

/-- C8: every public mutating operation with an argument in its domain takes a
state satisfying the cursor invariant `0 ≤ current_time ≤ duration` (with a
non-negative playback speed) to a state satisfying it again. -/
theorem timeline_cursor_invariant (s : TimelineController) (op : TimelineOp)
    (h : CursorInvariant s) (hsp : 0 ≤ s.playbackSpeed) (hop : op.Valid) :
    CursorInvariant (op.apply s).1 := by
  have hdur : 0 ≤ s.duration := h.1.trans h.2
  cases op with
  | setDuration d => exact ⟨le_rfl, hop⟩
  | play => exact animate_preserves_invariant _ 0 ⟨h.1, h.2⟩ hsp le_rfl
  | pause => exact h
  | reset => exact ⟨le_rfl, hdur⟩
  | step =>
    refine ⟨le_min (by linarith [h.1]) hdur, min_le_right _ _⟩
  | animate e => exact animate_preserves_invariant s e h hsp hop
  | sliderInput p =>
    have h100 : p / 100 ≤ 1 := by
      rw [div_le_one (by norm_num : (0:ℚ) < 100)]
      exact hop.2
    have hnn : 0 ≤ p / 100 := div_nonneg hop.1 (by norm_num)
    refine ⟨mul_nonneg hnn hdur, ?_⟩
    calc p / 100 * s.duration ≤ 1 * s.duration :=
          mul_le_mul_of_nonneg_right h100 hdur
      _ = s.duration := one_mul _


/-- A stopped state mid-scenario, for the C8 witness. -/
def tlMid : TimelineController := ⟨100, 500, false, 2⟩

/-- Witness for C8: a `step` from a stopped mid-scenario state keeps the
cursor invariant. -/
theorem timeline_cursor_invariant_witness :
    CursorInvariant (TimelineOp.apply .step tlMid).1 :=
  timeline_cursor_invariant tlMid .step (by decide) (by decide) (by decide)

/-- The source's `notifyCallbacks()`: every registered callback is invoked
with the current time inside its own `try`; a thrown error is caught and
logged via `console.error`.  A callback is modelled as a fallible function and
the log as the per-callback `Option String` of caught messages. -/
def notifyCallbacks (callbacks : List (ℚ → Except String Unit)) (t : ℚ) :
    List (Option String) :=
  callbacks.map fun callback =>
    match callback t with
    | Except.ok _ => none
    | Except.error e => some e

/-- A stopped state for the C9 counterexample. -/
def tlPaused : TimelineController := ⟨100, 200, false, 1⟩

/-- C9 counterexample: `setDuration` mutates the timeline (it rewinds
`currentTime` from 100 to 0) but never calls `notifyCallbacks()`, so the
observers are not notified on this mutation. -/
theorem setDuration_no_notify_cex :
    (TimelineOp.apply (.setDuration 200) tlPaused).1.currentTime ≠ tlPaused.currentTime ∧
      (TimelineOp.apply (.setDuration 200) tlPaused).2 = false := by
  decide

/-- An observer that always succeeds. -/
def cbOk : ℚ → Except String Unit := fun _ => Except.ok ()

/-- An observer that always throws. -/
def cbBad : ℚ → Except String Unit := fun _ => Except.error ("boom")

/-- C9 amended: every mutating operation except `setDuration` and `pause`
notifies the observers (`animate` when playing); and an exception thrown by
one observer is caught and logged in isolation, so the observers before and
after it are still invoked with the same time and their outcomes are
unchanged. -/
theorem notify_ops_and_isolation (s : TimelineController) (e p t : ℚ)
    (pre post : List (ℚ → Except String Unit)) (cb : ℚ → Except String Unit)
    (err : String) (hcb : cb t = Except.error err) (hp : s.isPlaying = true) :
    (TimelineOp.apply .reset s).2 = true ∧
      (TimelineOp.apply .step s).2 = true ∧
      (TimelineOp.apply (.sliderInput p) s).2 = true ∧
      (TimelineOp.apply .play s).2 = true ∧
      (TimelineOp.apply (.animate e) s).2 = true ∧
      notifyCallbacks (pre ++ cb :: post) t =
        notifyCallbacks pre t ++ some err :: notifyCallbacks post t := by
  refine ⟨rfl, rfl, rfl, rfl, hp, ?_⟩
  simp [notifyCallbacks, hcb]

/-- A playing state for the C9 witness. -/
def tlPlaying : TimelineController := ⟨0, 100, true, 1⟩

/-- Witness for C9 amended: the notifying operations report a notification
from `tlPlaying`, and a throwing observer between two successful ones leaves
both neighbours' outcomes intact. -/
theorem notify_ops_and_isolation_witness :
    (TimelineOp.apply .reset tlPlaying).2 = true ∧
      (TimelineOp.apply .step tlPlaying).2 = true ∧
      (TimelineOp.apply (.sliderInput 50) tlPlaying).2 = true ∧
      (TimelineOp.apply .play tlPlaying).2 = true ∧
      (TimelineOp.apply (.animate 1) tlPlaying).2 = true ∧
      notifyCallbacks ([cbOk] ++ cbBad :: [cbOk]) 7 =
        notifyCallbacks [cbOk] 7 ++ some ("boom") :: notifyCallbacks [cbOk] 7 :=
  notify_ops_and_isolation tlPlaying 1 50 7 [cbOk] [cbOk] cbBad ("boom") rfl rfl

/-- A damage zone: radius, lethality fraction and name, as in the
`get_casualties_by_zone` API. -/
structure DamageZone where
  radius_km : ℚ
  lethality_rate : ℚ
  zone_name : String
deriving DecidableEq

/-- A city together with its great-circle distance from the impact point.
The haversine computation against the city dataset is abstracted to this
per-city distance input. -/
structure CityAt where
  name : String
  population : Nat
  dist_km : ℚ
deriving DecidableEq

/-- Modelled from the spec: the Python implementation of the population
service's zone resolution is not in the repository (only its API
documentation); per §4.3 the zone applied to a city is the one with the
smallest `radius_km` that still contains it. -/
def innermostZone (zones : List DamageZone) (d : ℚ) : Option DamageZone :=
  zones.foldl
    (fun acc z =>
      if d ≤ z.radius_km then
        match acc with
        | none => some z
        | some w => if z.radius_km < w.radius_km then some z else some w
      else acc)
    none

/-- Modelled from the spec: a city's casualty contribution is its population
times the lethality rate of the innermost zone containing it (0 when no zone
contains it). -/
def cityCasualties (zones : List DamageZone) (c : CityAt) : ℚ :=
  match innermostZone zones c.dist_km with
  | none => 0
  | some z => z.lethality_rate * (c.population : ℚ)

/-- One entry of the `zones` list in the `get_casualties_by_zone` result. -/
structure ZoneResult where
  zone_name : String
  radius_km : ℚ
  lethality_rate : ℚ
  population_in_zone : Nat
  casualties : ℚ
deriving DecidableEq

/-- The `get_casualties_by_zone` result record. -/
structure CasualtiesResult where
  total_casualties : ℚ
  zones : List ZoneResult
  total_affected_population : Nat
deriving DecidableEq

/-- Modelled from the spec: `get_casualties_by_zone` — `total_casualties`
accumulates each city's population weighted by the lethality of the innermost
zone containing it (no double counting across overlapping zones); each
reported zone's `population_in_zone` is the non-deduplicated population
within that zone's radius, while its `casualties` only count cities whose
innermost zone it is; `total_affected_population` is the population inside
any zone. -/
def get_casualties_by_zone (cities : List CityAt) (zones : List DamageZone) :
    CasualtiesResult :=
  { total_casualties := cities.foldl (fun acc c => acc + cityCasualties zones c) 0
    zones := zones.map fun z =>
      { zone_name := z.zone_name
        radius_km := z.radius_km
        lethality_rate := z.lethality_rate
        population_in_zone :=
          ((cities.filter fun c => c.dist_km ≤ z.radius_km).map
            (fun c => c.population)).sum
        casualties :=
          ((cities.filter fun c => innermostZone zones c.dist_km = some z).map
            (fun c => z.lethality_rate * (c.population : ℚ))).sum }
    total_affected_population :=
      ((cities.filter fun c => zones.any fun z => decide (c.dist_km ≤ z.radius_km)).map
        (fun c => c.population)).sum }

/-- The claim's two fully overlapping zones: inner 10 km at lethality 1.0,
outer 50 km at lethality 0.3. -/
def overlapZones : List DamageZone := [⟨10, 1, "inner"⟩, ⟨50, 3 / 10, "outer"⟩]

/-- The claim's single city: population 1000, 5 km from the impact point. -/
def nearCity : CityAt := ⟨"city", 1000, 5⟩

/-- C5: with two fully overlapping zones (10 km / 1.0 and 50 km / 0.3) and one
city of population 1000 at distance 5 km — inside both zones — the reported
`total_casualties` is exactly 1000, the city being counted once at the
innermost (smallest-radius) containing zone's lethality, not 1300. -/
theorem casualties_zone_dedup :
    (get_casualties_by_zone [nearCity] overlapZones).total_casualties = 1000 ∧
      (get_casualties_by_zone [nearCity] overlapZones).total_casualties ≠ 1300 := by
  norm_num [get_casualties_by_zone, cityCasualties, innermostZone, overlapZones, nearCity]

end MeteorMadness
